import Mathlib

/-!
Shallow embedding of the `lumera-ica-client` Go repository.

The embedding covers:
* `client/config.go` — configuration records, `normalizeLogLevel`,
  `Config.Validate`, and the validation step of `LoadConfig`;
* `cmd/commands.go` — `resolveOptionalArg`;
* `cmd/upload.go`, `cmd/download.go`, `cmd/action.go` — the upload,
  download and approve command workflows, with every external
  collaborator (chain queries, mesh transfer, keyring backend, ICA
  transport) modelled as an oracle in an `Env` record and every
  outward-facing call recorded in an event trace;
* `client/cascade_client.go` — `resolvePassphrase`, `keyringAppName`,
  `newControllerKeyring` (up to the external `sdkcrypto.NewKeyring`
  call, whose argument record is the observable result), and the
  cyclic `repeatReader`.

Go's `strings.TrimSpace` is embedded as `String.trimSpace`, `strings.ToLower`
as `String.lowerAscii`, `strings.EqualFold` as comparison of lowerings, and
Go's `[]byte(s)` conversion as UTF-8 encoding of the string.  File
reads (`os.ReadFile`) are modelled by an oracle
`String → Option String` (`none` = read error).
-/

/-- Embedding of Go's `strings.TrimSpace`: drop leading and trailing
whitespace. -/
def String.trimSpace (s : String) : String :=
  String.mk (((s.data.dropWhile Char.isWhitespace).reverse.dropWhile
    Char.isWhitespace).reverse)

/-- Embedding of Go's `strings.ToLower` (ASCII case folding). -/
def String.lowerAscii (s : String) : String :=
  String.mk (s.data.map Char.toLower)

namespace LumeraICA

/-! ### Configuration data model (client/config.go) -/

/-- Embedding of `LumeraConfig`: the host chain connection settings. -/
structure LumeraConfig where
  chainID : String
  grpcEndpoint : String
  rpcEndpoint : String
  logLevel : String
  keyName : String
deriving DecidableEq, Repr

/-- Embedding of `ControllerConfig`: controller chain and keyring settings. -/
structure ControllerConfig where
  chainID : String
  grpcEndpoint : String
  rpcEndpoint : String
  binary : String
  home : String
  keyName : String
  keyringBackend : String
  keyringDir : String
  keyringPassphrasePlain : String
  keyringPassphraseFile : String
  gasPrices : String
  accountHRP : String
  connectionID : String
  counterpartyConnectionID : String
deriving DecidableEq, Repr

/-- Embedding of `Config`: the root configuration. -/
structure Config where
  lumera : LumeraConfig
  controller : ControllerConfig
deriving DecidableEq, Repr

/-- Embedding of `normalizeLogLevel`: maps user input to supported log
levels; empty input defaults to `info`, the synonym `warning` maps to
`warn`, anything unrecognized is an error. -/
def normalizeLogLevel (value : String) : Except String String :=
  let val := value.trimSpace.lowerAscii
  if val = "" then .ok "info"
  else if val = "debug" ∨ val = "info" ∨ val = "warn" ∨ val = "error" then .ok val
  else if val = "warning" then .ok "warn"
  else .error "lumera.log_level must be one of: debug, info, warn, error"

/-- Embedding of `Config.Validate`.  `readFileOracle` stands for
`os.ReadFile` (`none` = read error).  The Go method mutates the config
in place (normalized log level and keyring backend); here the updated
config is returned on success. -/
def Config.validate (readFileOracle : String → Option String) (c : Config) :
    Except String Config :=
  match normalizeLogLevel c.lumera.logLevel with
  | .error e => .error e
  | .ok lv =>
    let c := { c with lumera := { c.lumera with logLevel := lv } }
    if c.lumera.chainID.trimSpace = "" then .error "lumera.chain_id is required"
    else if c.lumera.grpcEndpoint.trimSpace = "" then .error "lumera.grpc_endpoint is required"
    else if c.lumera.rpcEndpoint.trimSpace = "" then .error "lumera.rpc_endpoint is required"
    else if c.lumera.keyName.trimSpace = "" then .error "lumera.key_name is required"
    else if c.controller.chainID.trimSpace = "" then .error "controller.chain_id is required"
    else if c.controller.grpcEndpoint.trimSpace = "" then .error "controller.grpc_endpoint is required"
    else if c.controller.rpcEndpoint.trimSpace = "" then .error "controller.rpc_endpoint is required"
    else if c.controller.keyName.trimSpace = "" then .error "controller.key_name is required"
    else if c.controller.keyringBackend.trimSpace = "" then .error "controller.keyring_backend is required"
    else if c.controller.accountHRP.trimSpace = "" then .error "controller.account_hrp is required"
    else if c.controller.connectionID.trimSpace = "" then .error "controller.connection_id is required"
    else if c.controller.keyringPassphrasePlain.trimSpace ≠ "" ∧
        c.controller.keyringPassphraseFile.trimSpace ≠ "" then
      .error "only one of controller.keyring_passphrase_plain or controller.keyring_passphrase_file may be set"
    else
      let backend := c.controller.keyringBackend.trimSpace.lowerAscii
      if backend = "os" ∨ backend = "file" ∨ backend = "test" then
        let c := { c with controller := { c.controller with keyringBackend := backend } }
        if backend = "file" ∧ c.controller.keyringDir.trimSpace = "" then
          .error "controller.keyring_dir is required for file backend"
        else if c.controller.keyringPassphraseFile.trimSpace ≠ "" then
          match readFileOracle c.controller.keyringPassphraseFile with
          | none => .error "read controller.keyring_passphrase_file: error"
          | some b =>
            if b.trimSpace = "" then .error "controller.keyring_passphrase_file is empty"
            else .ok c
        else .ok c
      else .error "controller.keyring_backend must be one of: os, file, test"

/-- Embedding of the validation step of `LoadConfig`: TOML decoding and
tilde expansion are I/O glue (out of scope per the spec); `loadConfig`
takes their outcome and runs `Config.validate` on it, exactly as the Go
function does after decoding. -/
def loadConfig (readFileOracle : String → Option String)
    (decoded : Except String Config) : Except String Config :=
  match decoded with
  | .error e => .error e
  | .ok cfg => cfg.validate readFileOracle

/-- The required fields checked by `Config.Validate`, in source order,
paired with their error-message names. -/
def requiredFields (c : Config) : List (String × String) :=
  [("lumera.chain_id", c.lumera.chainID),
   ("lumera.grpc_endpoint", c.lumera.grpcEndpoint),
   ("lumera.rpc_endpoint", c.lumera.rpcEndpoint),
   ("lumera.key_name", c.lumera.keyName),
   ("controller.chain_id", c.controller.chainID),
   ("controller.grpc_endpoint", c.controller.grpcEndpoint),
   ("controller.rpc_endpoint", c.controller.rpcEndpoint),
   ("controller.key_name", c.controller.keyName),
   ("controller.keyring_backend", c.controller.keyringBackend),
   ("controller.account_hrp", c.controller.accountHRP),
   ("controller.connection_id", c.controller.connectionID)]

/-- All required fields are non-blank after trimming. -/
def allRequiredNonBlank (c : Config) : Prop :=
  ∀ p ∈ requiredFields c, (Prod.snd p).trimSpace ≠ ""

/-- The passphrase mutual-exclusivity invariant. -/
def passphraseExclusive (c : Config) : Prop :=
  ¬(c.controller.keyringPassphrasePlain.trimSpace ≠ "" ∧
    c.controller.keyringPassphraseFile.trimSpace ≠ "")

/-- The keyring backend normalizes to one of the three recognized values. -/
def backendRecognized (c : Config) : Prop :=
  c.controller.keyringBackend.trimSpace.lowerAscii = "os" ∨
  c.controller.keyringBackend.trimSpace.lowerAscii = "file" ∨
  c.controller.keyringBackend.trimSpace.lowerAscii = "test"

/-- A file backend must come with a non-blank keyring directory. -/
def keyringDirOk (c : Config) : Prop :=
  c.controller.keyringBackend.trimSpace.lowerAscii = "file" → c.controller.keyringDir.trimSpace ≠ ""

/-- The log level is accepted by `normalizeLogLevel`. -/
def logLevelOk (c : Config) : Prop :=
  ∃ lv, normalizeLogLevel c.lumera.logLevel = .ok lv

/-- A configured passphrase file must read back non-blank. -/
def passphraseFileOk (readFileOracle : String → Option String) (c : Config) : Prop :=
  c.controller.keyringPassphraseFile.trimSpace ≠ "" →
    ∃ b, readFileOracle c.controller.keyringPassphraseFile = some b ∧ b.trimSpace ≠ ""

/-! ### CLI argument helper (cmd/commands.go) -/

/-- Embedding of `resolveOptionalArg`: accepts either a flag or a
positional value for a field. -/
def resolveOptionalArg (flagValue : String) (args : List String) (name : String) :
    Except String String :=
  let flagValue := flagValue.trimSpace
  if flagValue ≠ "" then
    if args.length > 0 then .error (name ++ " provided both as flag and argument")
    else .ok flagValue
  else
    match args with
    | a :: _ => .ok a.trimSpace
    | [] => .error (name ++ " is required")

/-! ### Action data model (host-ledger records, sdk-go `types`) -/

/-- States of a host-ledger action (spec §3; the exact set is owned by
the host ledger).  `types.ActionStatePending` is the `pending`
constructor. -/
inductive ActionState
  | pending
  | processing
  | done
  | approved
  | expired
  | rejected
deriving DecidableEq, Repr

/-- Printable name of an action state, used when formatting the
state-mismatch diagnostic (`fmt.Errorf("action %s state is %s; ...")`). -/
def ActionState.name : ActionState → String
  | .pending => "PENDING"
  | .processing => "PROCESSING"
  | .done => "DONE"
  | .approved => "APPROVED"
  | .expired => "EXPIRED"
  | .rejected => "REJECTED"

/-- Embedding of `types.CascadeMetadata` (the fields the client reads). -/
structure CascadeMetadata where
  public : Bool
  fileName : String
deriving DecidableEq, Repr

/-- Action metadata is a Go interface value inspected by a type test
(`action.Metadata.(*types.CascadeMetadata)`).  `cascade none` models a
typed-nil `*CascadeMetadata` pointer, which the Go code also rejects
(`ok && meta != nil`). -/
inductive ActionMetadata
  | cascade (meta : Option CascadeMetadata)
  | other
deriving DecidableEq, Repr

/-- Embedding of the action record fields the client reads. -/
structure Action where
  id : String
  state : ActionState
  creator : String
  metadata : ActionMetadata
deriving DecidableEq, Repr

/-- Embedding of `types.ActionResult` (fields used by the upload flow). -/
structure ActionResult where
  actionID : String
  txHash : String
  taskID : String
deriving DecidableEq, Repr

/-- Result of a mesh download (fields used by the download flow). -/
structure DownloadResult where
  actionID : String
  taskID : String
  outputPath : String
deriving DecidableEq, Repr

/-- Embedding of `client.Client` (the cascade client wrapper): the field
the commands read is the derived controller owner address. -/
structure CascadeClient where
  ownerAddress : String
deriving DecidableEq, Repr

/-- Embedding of `client.Controller` (the ICA controller wrapper): the
pure accessors the commands read. -/
structure ICAController where
  ownerAddress : String
  appPubkey : List UInt8
deriving DecidableEq, Repr

/-- Embedding of `actiontypes.MsgApproveAction` (fields set by the
approve flow: action id and creator). -/
structure ApproveMsg where
  actionID : String
  creator : String
deriving DecidableEq, Repr

/-! ### Command workflows (cmd/upload.go, cmd/download.go, cmd/action.go)

Every external collaborator call is an oracle in `Env`; the workflow
functions record each outward-facing call in an event trace. -/

/-- Oracles for the external collaborators of one command invocation. -/
structure Env where
  loadConfigResult : Except String Config
  filepathAbs : String → Except String String
  filepathClean : String → String
  mkdirAll : String → Except String Unit
  newCascadeClient : Config → Except String CascadeClient
  newLumeraClient : Config → Except String Unit
  newICAController : Config → Except String ICAController
  getAction : String → Except String Action
  uploadToSupernode : String → String → String → Except String String
  cascadeUpload : String → List UInt8 → String → Bool → Except String ActionResult
  icaEnsureAddress : Except String String
  icaQueryAddress : Except String String
  createApproveActionMessage : String → String → Except String ApproveMsg
  sendApproveAction : ApproveMsg → Except String String
  meshDownload : String → String → String → Except String DownloadResult

/-- Outward-facing calls a command can make. -/
inductive Event
  | meshUpload (actionID file signer : String)
  | cascadeSend (icaAddr file : String) (isPublic : Bool)
  | icaEnsure
  | icaQuery
  | buildApprove (actionID creator : String)
  | sendApprove (actionID creator : String)
  | meshFetch (actionID outDir signer : String)
deriving DecidableEq, Repr

/-- JSON payload of the upload command.  `isPublic = none` models the
`is_public` key being absent from the emitted map. -/
structure UploadPayload where
  status : String
  actionId : String
  txHash : String
  taskId : String
  icaAddress : String
  icaOwnerAddress : String
  isPublic : Option Bool
  file : String
deriving DecidableEq, Repr

/-- JSON payload of the approve command. -/
structure ApprovePayload where
  status : String
  actionId : String
  txHash : String
  icaAddress : String
  icaOwnerAddress : String
deriving DecidableEq, Repr

/-- JSON payload of the download command. -/
structure DownloadPayload where
  status : String
  actionId : String
  taskId : String
  outputPath : String
  fileName : String
deriving DecidableEq, Repr

/-- The `is_public` key of the resume-upload payload: present exactly
when the metadata type-asserts to a non-nil `*CascadeMetadata`. -/
def resumeMetaPublic : ActionMetadata → Option Bool
  | .cascade (some m) => some m.public
  | _ => none

/-- Embedding of the `upload` command body (`newUploadCmd`'s `RunE`).
Returns the command outcome and the trace of outward-facing calls. -/
def uploadRun (env : Env) (fileFlag : String) (args : List String)
    (actionIDFlag : String) (publicFlag : Bool) :
    Except String UploadPayload × List Event :=
  match resolveOptionalArg fileFlag args "file" with
  | .error e => (.error e, [])
  | .ok filePath =>
    match env.loadConfigResult with
    | .error e => (.error e, [])
    | .ok cfg =>
      match env.filepathAbs filePath with
      | .error e => (.error e, [])
      | .ok absPath =>
        match env.newCascadeClient cfg with
        | .error e => (.error e, [])
        | .ok cascClient =>
          if actionIDFlag.trimSpace ≠ "" then
            match env.newLumeraClient cfg with
            | .error e => (.error e, [])
            | .ok _ =>
              match env.getAction actionIDFlag with
              | .error e => (.error e, [])
              | .ok action =>
                if action.state ≠ ActionState.pending then
                  (.error ("action " ++ action.id ++ " state is " ++ action.state.name ++
                      "; expected " ++ ActionState.pending.name), [])
                else
                  let signer := action.creator.trimSpace
                  match env.uploadToSupernode action.id absPath signer with
                  | .error e => (.error e, [Event.meshUpload action.id absPath signer])
                  | .ok taskID =>
                    (.ok { status := "ok", actionId := action.id, txHash := "",
                           taskId := taskID, icaAddress := action.creator,
                           icaOwnerAddress := cascClient.ownerAddress,
                           isPublic := resumeMetaPublic action.metadata,
                           file := absPath },
                     [Event.meshUpload action.id absPath signer])
          else
            match env.newICAController cfg with
            | .error e => (.error e, [])
            | .ok controller =>
              match env.icaEnsureAddress with
              | .error e => (.error e, [Event.icaEnsure])
              | .ok icaAddr =>
                match env.cascadeUpload icaAddr controller.appPubkey absPath publicFlag with
                | .error e =>
                  (.error e, [Event.icaEnsure, Event.cascadeSend icaAddr absPath publicFlag])
                | .ok res =>
                  (.ok { status := "ok", actionId := res.actionID, txHash := res.txHash,
                         taskId := res.taskID, icaAddress := icaAddr,
                         icaOwnerAddress := controller.ownerAddress,
                         isPublic := some publicFlag, file := absPath },
                   [Event.icaEnsure, Event.cascadeSend icaAddr absPath publicFlag])

/-- Tail of the approve command after the ICA address is resolved:
build the approve message, send it, and report. -/
def approveFinish (env : Env) (controller : ICAController)
    (actionID icaAddr : String) (tr : List Event) :
    Except String ApprovePayload × List Event :=
  match env.createApproveActionMessage actionID icaAddr with
  | .error e => (.error e, tr ++ [Event.buildApprove actionID icaAddr])
  | .ok msg =>
    match env.sendApproveAction msg with
    | .error e =>
      (.error e, tr ++ [Event.buildApprove actionID icaAddr,
        Event.sendApprove msg.actionID msg.creator])
    | .ok txHash =>
      (.ok { status := "ok", actionId := actionID, txHash := txHash,
             icaAddress := icaAddr, icaOwnerAddress := controller.ownerAddress },
       tr ++ [Event.buildApprove actionID icaAddr,
         Event.sendApprove msg.actionID msg.creator])

/-- Embedding of the `action approve` command body
(`newActionApproveCmd`'s `RunE`). -/
def approveRun (env : Env) (actionIDFlag icaAddressFlag : String)
    (args : List String) : Except String ApprovePayload × List Event :=
  match resolveOptionalArg actionIDFlag args "action-id" with
  | .error e => (.error e, [])
  | .ok actionID =>
    match env.loadConfigResult with
    | .error e => (.error e, [])
    | .ok cfg =>
      match env.newCascadeClient cfg with
      | .error e => (.error e, [])
      | .ok _ =>
        match env.newICAController cfg with
        | .error e => (.error e, [])
        | .ok controller =>
          if icaAddressFlag.trimSpace = "" then
            match env.icaQueryAddress with
            | .error e => (.error e, [Event.icaQuery])
            | .ok addr => approveFinish env controller actionID addr [Event.icaQuery]
          else
            approveFinish env controller actionID icaAddressFlag []

/-- The best-effort file-name enrichment of the download command: any
failure (client construction, action lookup, non-cascade metadata)
degrades to the empty string. -/
def lookupFileName (env : Env) (cfg : Config) (actionID : String) : String :=
  match env.newLumeraClient cfg with
  | .error _ => ""
  | .ok _ =>
    match env.getAction actionID with
    | .error _ => ""
    | .ok action =>
      match action.metadata with
      | .cascade (some m) => m.fileName
      | _ => ""

/-- Embedding of the `download` command body (`newDownloadCmd`'s `RunE`). -/
def downloadRun (env : Env) (actionIDFlag outDirFlag : String)
    (args : List String) : Except String DownloadPayload × List Event :=
  match resolveOptionalArg actionIDFlag args "action-id" with
  | .error e => (.error e, [])
  | .ok actionID =>
    match env.loadConfigResult with
    | .error e => (.error e, [])
    | .ok cfg =>
      let outDir := env.filepathClean outDirFlag
      match env.mkdirAll outDir with
      | .error e => (.error e, [])
      | .ok _ =>
        match env.newCascadeClient cfg with
        | .error e => (.error e, [])
        | .ok _ =>
          match env.newICAController cfg with
          | .error e => (.error e, [])
          | .ok controller =>
            match env.meshDownload actionID outDir controller.ownerAddress with
            | .error e => (.error e, [Event.meshFetch actionID outDir controller.ownerAddress])
            | .ok res =>
              (.ok { status := "ok", actionId := res.actionID, taskId := res.taskID,
                     outputPath := res.outputPath,
                     fileName := lookupFileName env cfg actionID },
               [Event.meshFetch actionID outDir controller.ownerAddress])

/-! ### Keyring construction and the cyclic passphrase reader
(client/cascade_client.go) -/

/-- UTF-8 bytes of a string: the embedding of Go's `[]byte(s)`. -/
def utf8Bytes (s : String) : List UInt8 :=
  s.data.flatMap String.utf8EncodeChar

/-- Embedding of the `repeatReader` state: the byte buffer and the
current read position. -/
structure RepeatReader where
  data : List UInt8
  pos : Nat
deriving DecidableEq, Repr

/-- Embedding of `passphraseReader`: `none` models the nil reader
returned for an empty passphrase; otherwise the reader replays the
bytes of the passphrase followed by a newline. -/
def passphraseReader (passphrase : String) : Option RepeatReader :=
  if passphrase = "" then none
  else some { data := utf8Bytes (passphrase ++ "\n"), pos := 0 }

/-- The read error returned by the Go `io.Reader` contract; the only
one `repeatReader.Read` can produce is `io.EOF` (for empty data). -/
inductive ReadErr
  | eof
deriving DecidableEq, Repr

/-- One iteration of `repeatReader.Read`'s loop: the position the copy
starts from.  `remaining := len(r.data) - r.pos`; on `remaining == 0`
the Go loop resets `r.pos = 0`. -/
def readStart (data : List UInt8) (pos : Nat) : Nat :=
  if data.length - pos = 0 then 0 else pos

/-- One iteration of `repeatReader.Read`'s loop: the chunk size copied,
`min(remaining, len(p)-n)` in the Go code (`k` is the number of bytes
still to produce). -/
def readChunk (data : List UInt8) (pos k : Nat) : Nat :=
  min (data.length - readStart data pos) k

/-- The copy loop of `repeatReader.Read`: produce `k` bytes starting at
position `pos`, wrapping to the start of `data` whenever the remainder
is exhausted.  Returns the bytes produced and the final position. -/
def readLoop (data : List UInt8) (hdata : data ≠ []) (pos k : Nat) :
    List UInt8 × Nat :=
  if hk : k = 0 then ([], pos)
  else
    let next := readLoop data hdata (readStart data pos + readChunk data pos k)
      (k - readChunk data pos k)
    ((data.drop (readStart data pos)).take (readChunk data pos k) ++ next.1, next.2)
termination_by k
decreasing_by
  have hlen : 0 < data.length := List.length_pos.mpr hdata
  have hchunk : 0 < readChunk data pos k := by
    simp only [readChunk, readStart]
    split <;> omega
  omega

/-- Embedding of `repeatReader.Read`: returns the bytes written into
the caller's buffer of size `k`, the updated reader, and the error (Go
returns `(n, err)`; the byte count is the length of the first
component). -/
def repeatRead (r : RepeatReader) (k : Nat) :
    List UInt8 × RepeatReader × Option ReadErr :=
  if h : r.data = [] then ([], r, some .eof)
  else
    let res := readLoop r.data h r.pos k
    (res.1, { data := r.data, pos := res.2 }, none)

/-- Run a sequence of `Read` calls of the given buffer sizes, collecting
each call's output and error. -/
def runReads (r : RepeatReader) (ks : List Nat) :
    List (List UInt8 × Option ReadErr) × RepeatReader :=
  match ks with
  | [] => ([], r)
  | k :: rest =>
    let step := repeatRead r k
    let next := runReads step.2.1 rest
    ((step.1, step.2.2) :: next.1, next.2)

/-- The first `n` bytes of the infinite cyclic repetition of `data`. -/
def cyclicTake (data : List UInt8) (n : Nat) : List UInt8 :=
  (List.range n).map (fun j => data.getD (j % data.length) 0)

/-- The `n` bytes of the infinite cyclic repetition of `data` starting
at offset `pos`. -/
def cyclicSeg (data : List UInt8) (pos n : Nat) : List UInt8 :=
  (List.range n).map (fun j => data.getD ((pos + j) % data.length) 0)

/-! ### Keyring parameter construction (client/cascade_client.go) -/

/-- Embedding of `resolvePassphrase`: selects a single passphrase
source or returns empty for interactive prompts.  `readFileOracle`
stands for `os.ReadFile`. -/
def resolvePassphrase (readFileOracle : String → Option String)
    (plain filePath : String) : Except String String :=
  let plain := plain.trimSpace
  let filePath := filePath.trimSpace
  if plain ≠ "" ∧ filePath ≠ "" then
    .error "only one of keyring passphrase plain/file may be set"
  else if plain ≠ "" then .ok plain
  else if filePath = "" then .ok ""
  else
    match readFileOracle filePath with
    | none => .error "read keyring passphrase file: error"
    | some data =>
      if data.trimSpace = "" then .error "keyring passphrase file is empty"
      else .ok data.trimSpace

/-- Embedding of `keyringAppName`: a stable application name for the
controller keyring.  `base` stands for the external `filepath.Base`. -/
def keyringAppName (base : String → String) (cfg : ControllerConfig) : String :=
  if cfg.binary ≠ "" then base cfg.binary
  else if cfg.chainID ≠ "" then cfg.chainID
  else "lumera"

/-- The argument record handed to the external `sdkcrypto.NewKeyring`. -/
structure KeyringParams where
  appName : String
  backend : String
  dir : String
  input : Option RepeatReader
deriving DecidableEq, Repr

/-- Embedding of `newControllerKeyring` up to the external
`sdkcrypto.NewKeyring` call: computes the passphrase and the keyring
parameters (the observable inputs of the external constructor). -/
def newControllerKeyring (readFileOracle : String → Option String)
    (base : String → String) (cfg : ControllerConfig) :
    Except String KeyringParams :=
  match resolvePassphrase readFileOracle cfg.keyringPassphrasePlain
      cfg.keyringPassphraseFile with
  | .error e => .error e
  | .ok passphrase =>
    let dir := cfg.keyringDir.trimSpace
    let dir :=
      if dir = "" ∧ cfg.keyringBackend.lowerAscii = "test".lowerAscii then cfg.home.trimSpace
      else dir
    .ok { appName := keyringAppName base cfg, backend := cfg.keyringBackend,
          dir := dir, input := passphraseReader passphrase }

/-! ### Derived definitions used by the analysis -/

/-- The config produced by a successful `Config.Validate`: the log level
and the keyring backend are replaced by their normalized forms. -/
def normalizedConfig2 (c : Config) (lv : String) : Config :=
  { c with lumera := { c.lumera with logLevel := lv },
           controller := { c.controller with
             keyringBackend := c.controller.keyringBackend.trimSpace.lowerAscii } }

/-- Boolean form of `allRequiredNonBlank` (for concrete evaluation). -/
def allRequiredNonBlankB (c : Config) : Bool :=
  (requiredFields c).all (fun p => !((Prod.snd p).trimSpace == ""))

/-- Boolean form of `passphraseExclusive` (for concrete evaluation). -/
def passphraseExclusiveB (c : Config) : Bool :=
  !(c.controller.keyringPassphrasePlain.trimSpace != "" &&
    c.controller.keyringPassphraseFile.trimSpace != "")

/-! ### Concrete fixtures for evaluating the theorems -/

/-- A file-read oracle under which no file exists. -/
def fsNone : String → Option String := fun _ => none

/-- A fully-populated host-chain section. -/
def lumOk : LumeraConfig where
  chainID := "lumera-1"
  grpcEndpoint := "grpc.example:9090"
  rpcEndpoint := "rpc.example:26657"
  logLevel := "info"
  keyName := "hostkey"

/-- A fully-populated controller section (test backend, no keyring dir). -/
def ctlOk : ControllerConfig where
  chainID := "osmo-1"
  grpcEndpoint := "grpc.ctl:9090"
  rpcEndpoint := "rpc.ctl:26657"
  binary := ""
  home := "/home/u"
  keyName := "ctlkey"
  keyringBackend := "test"
  keyringDir := ""
  keyringPassphrasePlain := ""
  keyringPassphraseFile := ""
  gasPrices := ""
  accountHRP := "osmo"
  connectionID := "connection-0"
  counterpartyConnectionID := ""

/-- A configuration that passes validation. -/
def cfgOk : Config := { lumera := lumOk, controller := ctlOk }

/-- All required fields set, but an unrecognized keyring backend. -/
def cfgBadBackend : Config :=
  { cfgOk with controller := { ctlOk with keyringBackend := "bogus" } }

/-- A blank (whitespace) host chain id. -/
def cfgBlankChain : Config :=
  { cfgOk with lumera := { lumOk with chainID := " " } }

/-- An empty log level (every other field fine). -/
def cfgEmptyLog : Config :=
  { cfgOk with lumera := { lumOk with logLevel := "" } }

/-- Both passphrase sources set, every other field fine. -/
def cfgBoth1 : Config :=
  { cfgOk with controller := { ctlOk with
      keyringPassphrasePlain := "pass", keyringPassphraseFile := "/p" } }

/-- Both passphrase sources set and a blank host chain id. -/
def cfgBoth2 : Config :=
  { cfgBoth1 with lumera := { lumOk with chainID := "" } }

/-- File backend with a blank keyring dir (every other field fine). -/
def cfgFileNoDir : Config :=
  { cfgOk with controller := { ctlOk with keyringBackend := "file" } }

/-- Test backend, blank keyring dir, and a blank host chain id. -/
def cfgTestNoDirBad : Config :=
  { cfgOk with lumera := { lumOk with chainID := "" } }

/-- The keyring parameters produced for `ctlOk`. -/
def paramsTest : KeyringParams where
  appName := "osmo-1"
  backend := "test"
  dir := "/home/u"
  input := none

/-- An action that already progressed past the pending state. -/
def actionDone : Action where
  id := "a1"
  state := ActionState.done
  creator := "lumera1creator"
  metadata := ActionMetadata.other

/-- A pending action whose recorded creator has surrounding whitespace. -/
def actionPendingPadded : Action where
  id := "a1"
  state := ActionState.pending
  creator := " lumera1creator "
  metadata := ActionMetadata.cascade (some { public := true, fileName := "f.bin" })

/-- A base oracle environment for exercising the command workflows. -/
def envBase : Env where
  loadConfigResult := .ok cfgOk
  filepathAbs := fun p => .ok ("/abs/" ++ p)
  filepathClean := fun p => p
  mkdirAll := fun _ => .ok ()
  newCascadeClient := fun _ => .ok { ownerAddress := "osmo1owner" }
  newLumeraClient := fun _ => .ok ()
  newICAController := fun _ => .ok { ownerAddress := "osmo1owner", appPubkey := [1] }
  getAction := fun _ => .error "action not found"
  uploadToSupernode := fun _ _ _ => .ok "task-1"
  cascadeUpload := fun _ _ _ _ => .ok { actionID := "a-new", txHash := "0xabc", taskID := "task-9" }
  icaEnsureAddress := .ok "lumera1ica"
  icaQueryAddress := .error "ica address not found"
  createApproveActionMessage := fun aid creator => .ok { actionID := aid, creator := creator }
  sendApproveAction := fun _ => .ok "0xdead"
  meshDownload := fun aid outDir _ =>
    .ok { actionID := aid, taskID := "task-2", outputPath := outDir ++ "/out.bin" }

/-- Environment where the queried action is already done. -/
def envC1 : Env := { envBase with getAction := fun _ => .ok actionDone }

/-- Environment where the queried action is pending with a padded creator. -/
def envC7 : Env := { envBase with getAction := fun _ => .ok actionPendingPadded }

/-! ## Theorems

First the characterization of `Config.Validate`, then the claim
theorems. -/

/-- Unfolded form of `Config.validate`: the record updates performed by
the Go method do not change the fields that later checks read, so the
whole method is this if-chain over the raw fields. -/
theorem validate_eq (fs : String → Option String) (c : Config) :
    Config.validate fs c =
      match normalizeLogLevel c.lumera.logLevel with
      | .error e => .error e
      | .ok lv =>
        if c.lumera.chainID.trimSpace = "" then .error "lumera.chain_id is required"
        else if c.lumera.grpcEndpoint.trimSpace = "" then .error "lumera.grpc_endpoint is required"
        else if c.lumera.rpcEndpoint.trimSpace = "" then .error "lumera.rpc_endpoint is required"
        else if c.lumera.keyName.trimSpace = "" then .error "lumera.key_name is required"
        else if c.controller.chainID.trimSpace = "" then .error "controller.chain_id is required"
        else if c.controller.grpcEndpoint.trimSpace = "" then .error "controller.grpc_endpoint is required"
        else if c.controller.rpcEndpoint.trimSpace = "" then .error "controller.rpc_endpoint is required"
        else if c.controller.keyName.trimSpace = "" then .error "controller.key_name is required"
        else if c.controller.keyringBackend.trimSpace = "" then .error "controller.keyring_backend is required"
        else if c.controller.accountHRP.trimSpace = "" then .error "controller.account_hrp is required"
        else if c.controller.connectionID.trimSpace = "" then .error "controller.connection_id is required"
        else if c.controller.keyringPassphrasePlain.trimSpace ≠ "" ∧
            c.controller.keyringPassphraseFile.trimSpace ≠ "" then
          .error "only one of controller.keyring_passphrase_plain or controller.keyring_passphrase_file may be set"
        else if c.controller.keyringBackend.trimSpace.lowerAscii = "os" ∨
            c.controller.keyringBackend.trimSpace.lowerAscii = "file" ∨
            c.controller.keyringBackend.trimSpace.lowerAscii = "test" then
          if c.controller.keyringBackend.trimSpace.lowerAscii = "file" ∧
              c.controller.keyringDir.trimSpace = "" then
            .error "controller.keyring_dir is required for file backend"
          else if c.controller.keyringPassphraseFile.trimSpace ≠ "" then
            match fs c.controller.keyringPassphraseFile with
            | none => .error "read controller.keyring_passphrase_file: error"
            | some b =>
              if b.trimSpace = "" then .error "controller.keyring_passphrase_file is empty"
              else .ok (normalizedConfig2 c lv)
          else .ok (normalizedConfig2 c lv)
        else .error "controller.keyring_backend must be one of: os, file, test" := rfl

theorem validate_ok_elim {fs : String → Option String} {c c₂ : Config}
    (h : Config.validate fs c = .ok c₂) :
    logLevelOk c ∧ allRequiredNonBlank c ∧ passphraseExclusive c ∧
      backendRecognized c ∧ keyringDirOk c ∧ passphraseFileOk fs c := by
  rw [validate_eq] at h
  split at h
  · exact absurd h (by simp)
  next lv heq =>
    by_cases h1 : c.lumera.chainID.trimSpace = ""
    · rw [if_pos h1] at h; exact absurd h (by simp)
    rw [if_neg h1] at h
    by_cases h2 : c.lumera.grpcEndpoint.trimSpace = ""
    · rw [if_pos h2] at h; exact absurd h (by simp)
    rw [if_neg h2] at h
    by_cases h3 : c.lumera.rpcEndpoint.trimSpace = ""
    · rw [if_pos h3] at h; exact absurd h (by simp)
    rw [if_neg h3] at h
    by_cases h4 : c.lumera.keyName.trimSpace = ""
    · rw [if_pos h4] at h; exact absurd h (by simp)
    rw [if_neg h4] at h
    by_cases h5 : c.controller.chainID.trimSpace = ""
    · rw [if_pos h5] at h; exact absurd h (by simp)
    rw [if_neg h5] at h
    by_cases h6 : c.controller.grpcEndpoint.trimSpace = ""
    · rw [if_pos h6] at h; exact absurd h (by simp)
    rw [if_neg h6] at h
    by_cases h7 : c.controller.rpcEndpoint.trimSpace = ""
    · rw [if_pos h7] at h; exact absurd h (by simp)
    rw [if_neg h7] at h
    by_cases h8 : c.controller.keyName.trimSpace = ""
    · rw [if_pos h8] at h; exact absurd h (by simp)
    rw [if_neg h8] at h
    by_cases h9 : c.controller.keyringBackend.trimSpace = ""
    · rw [if_pos h9] at h; exact absurd h (by simp)
    rw [if_neg h9] at h
    by_cases h10 : c.controller.accountHRP.trimSpace = ""
    · rw [if_pos h10] at h; exact absurd h (by simp)
    rw [if_neg h10] at h
    by_cases h11 : c.controller.connectionID.trimSpace = ""
    · rw [if_pos h11] at h; exact absurd h (by simp)
    rw [if_neg h11] at h
    by_cases h12 : c.controller.keyringPassphrasePlain.trimSpace ≠ "" ∧
        c.controller.keyringPassphraseFile.trimSpace ≠ ""
    · rw [if_pos h12] at h; exact absurd h (by simp)
    rw [if_neg h12] at h
    by_cases h13 : c.controller.keyringBackend.trimSpace.lowerAscii = "os" ∨
        c.controller.keyringBackend.trimSpace.lowerAscii = "file" ∨
        c.controller.keyringBackend.trimSpace.lowerAscii = "test"
    case neg => rw [if_neg h13] at h; exact absurd h (by simp)
    rw [if_pos h13] at h
    by_cases h14 : c.controller.keyringBackend.trimSpace.lowerAscii = "file" ∧
        c.controller.keyringDir.trimSpace = ""
    · rw [if_pos h14] at h; exact absurd h (by simp)
    rw [if_neg h14] at h
    have hreq : allRequiredNonBlank c := by
      intro p hp
      simp only [requiredFields, List.mem_cons, List.not_mem_nil, or_false] at hp
      rcases hp with rfl|rfl|rfl|rfl|rfl|rfl|rfl|rfl|rfl|rfl|rfl <;> assumption
    have hdir : keyringDirOk c := fun hf => by
      intro hd; exact h14 ⟨hf, hd⟩
    by_cases h15 : c.controller.keyringPassphraseFile.trimSpace ≠ ""
    · rw [if_pos h15] at h
      split at h
      · exact absurd h (by simp)
      next b hfs =>
        by_cases h16 : b.trimSpace = ""
        · rw [if_pos h16] at h; exact absurd h (by simp)
        exact ⟨⟨lv, heq⟩, hreq, h12, h13, hdir, fun _ => ⟨b, hfs, h16⟩⟩
    · exact ⟨⟨lv, heq⟩, hreq, h12, h13, hdir, fun hf => absurd hf h15⟩

theorem validate_ok_intro (fs : String → Option String) (c : Config)
    (hlog : logLevelOk c) (hreq : allRequiredNonBlank c)
    (hex : passphraseExclusive c) (hbk : backendRecognized c)
    (hdir : keyringDirOk c) (hpf : passphraseFileOk fs c) :
    ∃ c₂, Config.validate fs c = .ok c₂ := by
  obtain ⟨lv, heq⟩ := hlog
  have hr : ∀ p ∈ requiredFields c, (Prod.snd p).trimSpace ≠ "" := hreq
  have r1 : (c.lumera.chainID).trimSpace ≠ "" := hr ("lumera.chain_id", c.lumera.chainID) (by simp [requiredFields])
  have r2 : (c.lumera.grpcEndpoint).trimSpace ≠ "" := hr ("lumera.grpc_endpoint", c.lumera.grpcEndpoint) (by simp [requiredFields])
  have r3 : (c.lumera.rpcEndpoint).trimSpace ≠ "" := hr ("lumera.rpc_endpoint", c.lumera.rpcEndpoint) (by simp [requiredFields])
  have r4 : (c.lumera.keyName).trimSpace ≠ "" := hr ("lumera.key_name", c.lumera.keyName) (by simp [requiredFields])
  have r5 : (c.controller.chainID).trimSpace ≠ "" := hr ("controller.chain_id", c.controller.chainID) (by simp [requiredFields])
  have r6 : (c.controller.grpcEndpoint).trimSpace ≠ "" := hr ("controller.grpc_endpoint", c.controller.grpcEndpoint) (by simp [requiredFields])
  have r7 : (c.controller.rpcEndpoint).trimSpace ≠ "" := hr ("controller.rpc_endpoint", c.controller.rpcEndpoint) (by simp [requiredFields])
  have r8 : (c.controller.keyName).trimSpace ≠ "" := hr ("controller.key_name", c.controller.keyName) (by simp [requiredFields])
  have r9 : (c.controller.keyringBackend).trimSpace ≠ "" := hr ("controller.keyring_backend", c.controller.keyringBackend) (by simp [requiredFields])
  have r10 : (c.controller.accountHRP).trimSpace ≠ "" := hr ("controller.account_hrp", c.controller.accountHRP) (by simp [requiredFields])
  have r11 : (c.controller.connectionID).trimSpace ≠ "" := hr ("controller.connection_id", c.controller.connectionID) (by simp [requiredFields])
  simp only [validate_eq, heq]
  rw [if_neg r1]
  rw [if_neg r2]
  rw [if_neg r3]
  rw [if_neg r4]
  rw [if_neg r5]
  rw [if_neg r6]
  rw [if_neg r7]
  rw [if_neg r8]
  rw [if_neg r9]
  rw [if_neg r10]
  rw [if_neg r11]
  have hex' : ¬(c.controller.keyringPassphrasePlain.trimSpace ≠ "" ∧
      c.controller.keyringPassphraseFile.trimSpace ≠ "") := hex
  have hbk' : c.controller.keyringBackend.trimSpace.lowerAscii = "os" ∨
      c.controller.keyringBackend.trimSpace.lowerAscii = "file" ∨
      c.controller.keyringBackend.trimSpace.lowerAscii = "test" := hbk
  rw [if_neg hex', if_pos hbk']
  by_cases h14 : c.controller.keyringBackend.trimSpace.lowerAscii = "file" ∧
      c.controller.keyringDir.trimSpace = ""
  · exact absurd h14.2 (hdir h14.1)
  rw [if_neg h14]
  by_cases h15 : c.controller.keyringPassphraseFile.trimSpace ≠ ""
  · rw [if_pos h15]
    obtain ⟨b, hfs, hb⟩ := hpf h15
    simp only [hfs]
    rw [if_neg hb]
    exact ⟨_, rfl⟩
  · rw [if_neg h15]
    exact ⟨_, rfl⟩



theorem validate_names_first_blank (fs : String → Option String) (c : Config)
    (lv name val : String)
    (heq : normalizeLogLevel c.lumera.logLevel = .ok lv)
    (hf : (requiredFields c).find? (fun p => (Prod.snd p).trimSpace == "") = some (name, val)) :
    Config.validate fs c = .error (name ++ " is required") := by
  simp only [requiredFields] at hf
  simp only [validate_eq, heq]
  by_cases h1 : (c.lumera.chainID).trimSpace = ""
  · rw [List.find?_cons_of_pos _ (by simp [h1])] at hf
    rw [if_pos h1]
    simp only [Option.some.injEq, Prod.mk.injEq] at hf
    rw [← hf.1]
    rfl
  rw [List.find?_cons_of_neg _ (by simp [h1])] at hf
  rw [if_neg h1]
  by_cases h2 : (c.lumera.grpcEndpoint).trimSpace = ""
  · rw [List.find?_cons_of_pos _ (by simp [h2])] at hf
    rw [if_pos h2]
    simp only [Option.some.injEq, Prod.mk.injEq] at hf
    rw [← hf.1]
    rfl
  rw [List.find?_cons_of_neg _ (by simp [h2])] at hf
  rw [if_neg h2]
  by_cases h3 : (c.lumera.rpcEndpoint).trimSpace = ""
  · rw [List.find?_cons_of_pos _ (by simp [h3])] at hf
    rw [if_pos h3]
    simp only [Option.some.injEq, Prod.mk.injEq] at hf
    rw [← hf.1]
    rfl
  rw [List.find?_cons_of_neg _ (by simp [h3])] at hf
  rw [if_neg h3]
  by_cases h4 : (c.lumera.keyName).trimSpace = ""
  · rw [List.find?_cons_of_pos _ (by simp [h4])] at hf
    rw [if_pos h4]
    simp only [Option.some.injEq, Prod.mk.injEq] at hf
    rw [← hf.1]
    rfl
  rw [List.find?_cons_of_neg _ (by simp [h4])] at hf
  rw [if_neg h4]
  by_cases h5 : (c.controller.chainID).trimSpace = ""
  · rw [List.find?_cons_of_pos _ (by simp [h5])] at hf
    rw [if_pos h5]
    simp only [Option.some.injEq, Prod.mk.injEq] at hf
    rw [← hf.1]
    rfl
  rw [List.find?_cons_of_neg _ (by simp [h5])] at hf
  rw [if_neg h5]
  by_cases h6 : (c.controller.grpcEndpoint).trimSpace = ""
  · rw [List.find?_cons_of_pos _ (by simp [h6])] at hf
    rw [if_pos h6]
    simp only [Option.some.injEq, Prod.mk.injEq] at hf
    rw [← hf.1]
    rfl
  rw [List.find?_cons_of_neg _ (by simp [h6])] at hf
  rw [if_neg h6]
  by_cases h7 : (c.controller.rpcEndpoint).trimSpace = ""
  · rw [List.find?_cons_of_pos _ (by simp [h7])] at hf
    rw [if_pos h7]
    simp only [Option.some.injEq, Prod.mk.injEq] at hf
    rw [← hf.1]
    rfl
  rw [List.find?_cons_of_neg _ (by simp [h7])] at hf
  rw [if_neg h7]
  by_cases h8 : (c.controller.keyName).trimSpace = ""
  · rw [List.find?_cons_of_pos _ (by simp [h8])] at hf
    rw [if_pos h8]
    simp only [Option.some.injEq, Prod.mk.injEq] at hf
    rw [← hf.1]
    rfl
  rw [List.find?_cons_of_neg _ (by simp [h8])] at hf
  rw [if_neg h8]
  by_cases h9 : (c.controller.keyringBackend).trimSpace = ""
  · rw [List.find?_cons_of_pos _ (by simp [h9])] at hf
    rw [if_pos h9]
    simp only [Option.some.injEq, Prod.mk.injEq] at hf
    rw [← hf.1]
    rfl
  rw [List.find?_cons_of_neg _ (by simp [h9])] at hf
  rw [if_neg h9]
  by_cases h10 : (c.controller.accountHRP).trimSpace = ""
  · rw [List.find?_cons_of_pos _ (by simp [h10])] at hf
    rw [if_pos h10]
    simp only [Option.some.injEq, Prod.mk.injEq] at hf
    rw [← hf.1]
    rfl
  rw [List.find?_cons_of_neg _ (by simp [h10])] at hf
  rw [if_neg h10]
  by_cases h11 : (c.controller.connectionID).trimSpace = ""
  · rw [List.find?_cons_of_pos _ (by simp [h11])] at hf
    rw [if_pos h11]
    simp only [Option.some.injEq, Prod.mk.injEq] at hf
    rw [← hf.1]
    rfl
  rw [List.find?_cons_of_neg _ (by simp [h11])] at hf
  rw [if_neg h11]
  exact absurd hf (by simp)


/-- The boolean form of the required-field check agrees with the
propositional one. -/
theorem allRequiredNonBlank_iff_bool (c : Config) :
    allRequiredNonBlank c ↔ allRequiredNonBlankB c = true := by
  simp [allRequiredNonBlank, allRequiredNonBlankB, List.all_eq_true]

/-! ### Claim C2 — required fields -/

/-- C2 (amended).  If some required field of the configuration is blank,
validation cannot succeed; when the log level is accepted, the error
names the first blank required field in check order.  Conversely,
validation succeeds when all required fields are non-blank, passphrase
exclusivity holds, the log level is accepted, the keyring backend is one
of the three recognized values, a file backend comes with a keyring
directory, and any configured passphrase file reads back non-blank. -/
theorem c2_load_required_fields (fs : String → Option String) (c : Config) :
    ((∃ p ∈ requiredFields c, (Prod.snd p).trimSpace = "") →
      ¬∃ c₂, Config.validate fs c = .ok c₂) ∧
    (∀ lv name val, normalizeLogLevel c.lumera.logLevel = .ok lv →
      (requiredFields c).find? (fun p => (Prod.snd p).trimSpace == "") = some (name, val) →
      Config.validate fs c = .error (name ++ " is required")) ∧
    ((logLevelOk c ∧ allRequiredNonBlank c ∧ passphraseExclusive c ∧
        backendRecognized c ∧ keyringDirOk c ∧ passphraseFileOk fs c) →
      ∃ c₂, Config.validate fs c = .ok c₂) := by
  refine ⟨?_, ?_, ?_⟩
  · rintro ⟨p, hp, hblank⟩ ⟨c₂, hok⟩
    exact (validate_ok_elim hok).2.1 p hp hblank
  · intro lv name val heq hf
    exact validate_names_first_blank fs c lv name val heq hf
  · rintro ⟨h₁, h₂, h₃, h₄, h₅, h₆⟩
    exact validate_ok_intro fs c h₁ h₂ h₃ h₄ h₅ h₆

/-- Witness for C2: a blank `lumera.chain_id` is reported by name. -/
theorem c2_load_required_fields_witness :
    Config.validate fsNone cfgBlankChain = .error ("lumera.chain_id" ++ " is required") :=
  (c2_load_required_fields fsNone cfgBlankChain).2.1 "info" "lumera.chain_id" " "
    rfl rfl

/-- Counterexample for C2 as stated: every required field of
`cfgBadBackend` is non-blank and passphrase exclusivity holds, yet
`Load` fails (on the unrecognized keyring backend). -/
theorem c2_counterexample :
    allRequiredNonBlankB cfgBadBackend = true ∧
    passphraseExclusiveB cfgBadBackend = true ∧
    Config.validate fsNone cfgBadBackend =
      .error "controller.keyring_backend must be one of: os, file, test" := by
  refine ⟨by decide, by decide, rfl⟩

/-! ### Claim C3 — log-level normalization -/

/-- C3 (amended).  The literal values `debug`, `info`, `warn`, `error`
pass through unchanged and `warning` normalizes to `warn`; an empty
(post-trim-and-lowercase) value defaults to `info`; any value whose
trimmed lowercase form is none of these fails; and a log-level failure
makes `Config.validate` fail with the same error. -/
theorem c3_log_level_normalization (v : String) (fs : String → Option String)
    (c : Config) :
    (v = "debug" ∨ v = "info" ∨ v = "warn" ∨ v = "error" →
      normalizeLogLevel v = .ok v) ∧
    (v = "warning" → normalizeLogLevel v = .ok "warn") ∧
    (v.trimSpace.lowerAscii = "" → normalizeLogLevel v = .ok "info") ∧
    (v.trimSpace.lowerAscii ≠ "" → v.trimSpace.lowerAscii ≠ "debug" → v.trimSpace.lowerAscii ≠ "info" →
      v.trimSpace.lowerAscii ≠ "warn" → v.trimSpace.lowerAscii ≠ "error" → v.trimSpace.lowerAscii ≠ "warning" →
      normalizeLogLevel v = .error "lumera.log_level must be one of: debug, info, warn, error") ∧
    (∀ e, normalizeLogLevel c.lumera.logLevel = .error e →
      Config.validate fs c = .error e) := by
  refine ⟨?_, ?_, ?_, ?_, ?_⟩
  · rintro (rfl | rfl | rfl | rfl) <;> rfl
  · rintro rfl; rfl
  · intro h
    simp only [normalizeLogLevel]
    rw [if_pos h]
  · intro h0 h1 h2 h3 h4 h5
    simp only [normalizeLogLevel]
    rw [if_neg h0, if_neg (by tauto), if_neg h5]
  · intro e heq
    simp only [validate_eq, heq]

/-- Witness for C3: `warning` normalizes to `warn`. -/
theorem c3_log_level_normalization_witness :
    normalizeLogLevel "warning" = .ok "warn" :=
  (c3_log_level_normalization "warning" fsNone cfgOk).2.1 rfl

/-- Counterexample for C3 as stated: the empty string is not one of the
five listed values, yet `Load` succeeds on it (it defaults to `info`). -/
theorem c3_counterexample :
    cfgEmptyLog.lumera.logLevel = "" ∧
    ¬("" = "debug" ∨ "" = "info" ∨ "" = "warn" ∨ "" = "error" ∨ "" = "warning") ∧
    Config.validate fsNone cfgEmptyLog = .ok (normalizedConfig2 cfgEmptyLog "info") := by
  refine ⟨rfl, by decide, rfl⟩

/-! ### Claim C4 — passphrase mutual exclusivity -/

/-- C4 (amended).  When both passphrase sources are set, validation can
never succeed, whatever the other fields; the reported error is the
mutual-exclusivity one whenever the preceding checks (log level and
required fields) pass. -/
theorem c4_passphrase_exclusivity (fs : String → Option String) (c : Config)
    (hboth : c.controller.keyringPassphrasePlain.trimSpace ≠ "" ∧
      c.controller.keyringPassphraseFile.trimSpace ≠ "") :
    (¬∃ c₂, Config.validate fs c = .ok c₂) ∧
    (logLevelOk c → allRequiredNonBlank c →
      Config.validate fs c =
        .error "only one of controller.keyring_passphrase_plain or controller.keyring_passphrase_file may be set") := by
  constructor
  · rintro ⟨c₂, hok⟩
    exact (validate_ok_elim hok).2.2.1 hboth
  · rintro ⟨lv, heq⟩ hreq
    have hr : ∀ p ∈ requiredFields c, (Prod.snd p).trimSpace ≠ "" := hreq
    have r1 : (c.lumera.chainID).trimSpace ≠ "" := hr ("lumera.chain_id", c.lumera.chainID) (by simp [requiredFields])
    have r2 : (c.lumera.grpcEndpoint).trimSpace ≠ "" := hr ("lumera.grpc_endpoint", c.lumera.grpcEndpoint) (by simp [requiredFields])
    have r3 : (c.lumera.rpcEndpoint).trimSpace ≠ "" := hr ("lumera.rpc_endpoint", c.lumera.rpcEndpoint) (by simp [requiredFields])
    have r4 : (c.lumera.keyName).trimSpace ≠ "" := hr ("lumera.key_name", c.lumera.keyName) (by simp [requiredFields])
    have r5 : (c.controller.chainID).trimSpace ≠ "" := hr ("controller.chain_id", c.controller.chainID) (by simp [requiredFields])
    have r6 : (c.controller.grpcEndpoint).trimSpace ≠ "" := hr ("controller.grpc_endpoint", c.controller.grpcEndpoint) (by simp [requiredFields])
    have r7 : (c.controller.rpcEndpoint).trimSpace ≠ "" := hr ("controller.rpc_endpoint", c.controller.rpcEndpoint) (by simp [requiredFields])
    have r8 : (c.controller.keyName).trimSpace ≠ "" := hr ("controller.key_name", c.controller.keyName) (by simp [requiredFields])
    have r9 : (c.controller.keyringBackend).trimSpace ≠ "" := hr ("controller.keyring_backend", c.controller.keyringBackend) (by simp [requiredFields])
    have r10 : (c.controller.accountHRP).trimSpace ≠ "" := hr ("controller.account_hrp", c.controller.accountHRP) (by simp [requiredFields])
    have r11 : (c.controller.connectionID).trimSpace ≠ "" := hr ("controller.connection_id", c.controller.connectionID) (by simp [requiredFields])
    simp only [validate_eq, heq]
    rw [if_neg r1, if_neg r2, if_neg r3, if_neg r4, if_neg r5, if_neg r6, if_neg r7,
      if_neg r8, if_neg r9, if_neg r10, if_neg r11, if_pos hboth]

/-- Witness for C4: both sources set on an otherwise-fine config. -/
theorem c4_passphrase_exclusivity_witness :
    Config.validate fsNone cfgBoth1 =
      .error "only one of controller.keyring_passphrase_plain or controller.keyring_passphrase_file may be set" :=
  (c4_passphrase_exclusivity fsNone cfgBoth1 (by decide)).2 ⟨"info", rfl⟩
    ((allRequiredNonBlank_iff_bool cfgBoth1).mpr (by decide))

/-- Counterexample for C4 as stated: with both passphrase sources set
and a blank `lumera.chain_id`, the error is the required-field one, not
the mutual-exclusivity one. -/
theorem c4_counterexample :
    cfgBoth2.controller.keyringPassphrasePlain = "pass" ∧
    cfgBoth2.controller.keyringPassphraseFile = "/p" ∧
    Config.validate fsNone cfgBoth2 = .error "lumera.chain_id is required" ∧
    "lumera.chain_id is required" ≠
      "only one of controller.keyring_passphrase_plain or controller.keyring_passphrase_file may be set" := by
  refine ⟨rfl, rfl, rfl, by decide⟩

/-! ### Claim C5 — keyring directory rules -/

/-- C5 (amended).  A file backend with a blank keyring dir can never
validate; a test backend with a blank keyring dir passes the
keyring-dir check (validation succeeds whenever the remaining checks
hold); and keyring construction for a test backend with a blank dir
uses the trimmed controller home setting as the keyring directory. -/
theorem c5_keyring_dir_rules (fs : String → Option String)
    (base : String → String) (c : Config) (cfg : ControllerConfig) :
    (c.controller.keyringBackend.trimSpace.lowerAscii = "file" →
      c.controller.keyringDir.trimSpace = "" →
      ¬∃ c₂, Config.validate fs c = .ok c₂) ∧
    (c.controller.keyringBackend.trimSpace.lowerAscii = "test" →
      logLevelOk c → allRequiredNonBlank c → passphraseExclusive c →
      passphraseFileOk fs c → ∃ c₂, Config.validate fs c = .ok c₂) ∧
    (cfg.keyringBackend.lowerAscii = "test".lowerAscii → cfg.keyringDir.trimSpace = "" →
      ∀ params, newControllerKeyring fs base cfg = .ok params →
        params.dir = cfg.home.trimSpace) := by
  refine ⟨?_, ?_, ?_⟩
  · rintro hfile hdir ⟨c₂, hok⟩
    exact (validate_ok_elim hok).2.2.2.2.1 hfile hdir
  · intro htest h₁ h₂ h₃ h₆
    refine validate_ok_intro fs c h₁ h₂ h₃ (Or.inr (Or.inr htest)) ?_ h₆
    intro hfile
    exact absurd (htest.symm.trans hfile) (by decide)
  · intro hb hd params hp
    unfold newControllerKeyring at hp
    split at hp
    · exact absurd hp (by simp)
    · simp only [Except.ok.injEq] at hp
      rw [← hp]
      simp [hd, hb]

/-- Witness for C5: for `ctlOk` (test backend, blank dir) the keyring
parameters use the home directory. -/
theorem c5_keyring_dir_rules_witness :
    paramsTest.dir = ctlOk.home.trimSpace :=
  (c5_keyring_dir_rules fsNone id cfgOk ctlOk).2.2 (by decide) (by decide)
    paramsTest rfl

/-- Counterexample for C5 as stated: a test backend with a blank
keyring dir does not make validation succeed unconditionally — with a
blank host chain id it still fails. -/
theorem c5_counterexample :
    cfgTestNoDirBad.controller.keyringBackend = "test" ∧
    cfgTestNoDirBad.controller.keyringDir = "" ∧
    Config.validate fsNone cfgTestNoDirBad = .error "lumera.chain_id is required" := by
  refine ⟨rfl, rfl, rfl⟩

/-! ### Claim C10 — flag/argument exclusivity -/

/-- C10.  `resolveOptionalArg` fails when the value is supplied both
ways, returns the trimmed value when supplied through exactly one
channel, and fails with a required-field error when supplied through
neither. -/
theorem c10_resolve_optional_arg (flagValue name : String) (args : List String) :
    (flagValue.trimSpace ≠ "" → args ≠ [] →
      resolveOptionalArg flagValue args name =
        .error (name ++ " provided both as flag and argument")) ∧
    (flagValue.trimSpace ≠ "" → args = [] →
      resolveOptionalArg flagValue args name = .ok flagValue.trimSpace) ∧
    (∀ a rest, flagValue.trimSpace = "" → args = a :: rest →
      resolveOptionalArg flagValue args name = .ok a.trimSpace) ∧
    (flagValue.trimSpace = "" → args = [] →
      resolveOptionalArg flagValue args name = .error (name ++ " is required")) := by
  refine ⟨?_, ?_, ?_, ?_⟩
  · intro hf ha
    have : args.length > 0 := List.length_pos.mpr ha
    simp [resolveOptionalArg, hf, this]
  · rintro hf rfl
    simp [resolveOptionalArg, hf]
  · rintro a rest hf rfl
    simp [resolveOptionalArg, hf]
  · rintro hf rfl
    simp [resolveOptionalArg, hf]

/-- Witness for C10: flag-only input is trimmed; both channels fail. -/
theorem c10_resolve_optional_arg_witness :
    resolveOptionalArg " x " [] "file" = .ok "x" ∧
    resolveOptionalArg " x " ["y"] "file" =
      .error ("file" ++ " provided both as flag and argument") :=
  ⟨(c10_resolve_optional_arg " x " "file" []).2.1 (by decide) rfl,
   (c10_resolve_optional_arg " x " "file" ["y"]).1 (by decide) (by decide)⟩


/-! ### Claim C1 — resume path state mismatch -/

/-- C1.  When the upload command reaches the action fetch for a
supplied action id and the fetched action is not `Pending`, the command
fails with the state-mismatch error naming the actual and the expected
state, and no mesh upload call is made. -/
theorem c1_resume_state_mismatch (env : Env) (fileFlag actionIDFlag : String)
    (args : List String) (publicFlag : Bool) (filePath absPath : String)
    (cfg : Config) (cascClient : CascadeClient) (action : Action)
    (h1 : resolveOptionalArg fileFlag args "file" = .ok filePath)
    (h2 : env.loadConfigResult = .ok cfg)
    (h3 : env.filepathAbs filePath = .ok absPath)
    (h4 : env.newCascadeClient cfg = .ok cascClient)
    (h5 : actionIDFlag.trimSpace ≠ "")
    (h6 : env.newLumeraClient cfg = .ok ())
    (h7 : env.getAction actionIDFlag = .ok action)
    (h8 : action.state ≠ ActionState.pending) :
    uploadRun env fileFlag args actionIDFlag publicFlag =
      (.error ("action " ++ action.id ++ " state is " ++ action.state.name ++
        "; expected " ++ ActionState.pending.name), []) ∧
    ∀ a f sg, Event.meshUpload a f sg ∉ (uploadRun env fileFlag args actionIDFlag publicFlag).2 := by
  have hmain : uploadRun env fileFlag args actionIDFlag publicFlag =
      (.error ("action " ++ action.id ++ " state is " ++ action.state.name ++
        "; expected " ++ ActionState.pending.name), []) := by
    simp only [uploadRun, h1, h2, h3, h4, h6, h7]
    rw [if_pos h5, if_pos h8]
  exact ⟨hmain, fun a f sg => by rw [hmain]; simp⟩

/-- Witness for C1: a `Done` action aborts the resume upload. -/
theorem c1_resume_state_mismatch_witness :
    uploadRun envC1 "f.txt" [] "a1" false =
      (.error "action a1 state is DONE; expected PENDING", []) :=
  (c1_resume_state_mismatch envC1 "f.txt" "a1" [] false "f.txt" "/abs/f.txt"
    cfgOk { ownerAddress := "osmo1owner" } actionDone
    rfl rfl rfl rfl (by decide) rfl rfl (by decide)).1

/-! ### Claim C7 — resume path success report -/

/-- C7 (amended).  On a successful resume upload the payload has an
empty transaction hash, reports the action's recorded creator as the
ICA address, includes the visibility flag exactly when the metadata is
the (non-nil) cascade variant, and the mesh upload signer is the
whitespace-trimmed creator address. -/
theorem c7_resume_report (env : Env) (fileFlag actionIDFlag : String)
    (args : List String) (publicFlag : Bool) (filePath absPath taskID : String)
    (cfg : Config) (cascClient : CascadeClient) (action : Action)
    (h1 : resolveOptionalArg fileFlag args "file" = .ok filePath)
    (h2 : env.loadConfigResult = .ok cfg)
    (h3 : env.filepathAbs filePath = .ok absPath)
    (h4 : env.newCascadeClient cfg = .ok cascClient)
    (h5 : actionIDFlag.trimSpace ≠ "")
    (h6 : env.newLumeraClient cfg = .ok ())
    (h7 : env.getAction actionIDFlag = .ok action)
    (h8 : action.state = ActionState.pending)
    (h9 : env.uploadToSupernode action.id absPath action.creator.trimSpace = .ok taskID) :
    uploadRun env fileFlag args actionIDFlag publicFlag =
      (.ok { status := "ok", actionId := action.id, txHash := "", taskId := taskID,
             icaAddress := action.creator, icaOwnerAddress := cascClient.ownerAddress,
             isPublic := resumeMetaPublic action.metadata, file := absPath },
       [Event.meshUpload action.id absPath action.creator.trimSpace]) := by
  simp only [uploadRun, h1, h2, h3, h4, h6, h7]
  rw [if_pos h5, if_neg (by simp [h8]), h9]

/-- Witness for C7 (amended): a pending cascade action with a padded
creator reports the recorded creator and an empty tx hash. -/
theorem c7_resume_report_witness :
    uploadRun envC7 "f.txt" [] "a1" false =
      (.ok { status := "ok", actionId := "a1", txHash := "", taskId := "task-1",
             icaAddress := " lumera1creator ", icaOwnerAddress := "osmo1owner",
             isPublic := some true, file := "/abs/f.txt" },
       [Event.meshUpload "a1" "/abs/f.txt" "lumera1creator"]) :=
  c7_resume_report envC7 "f.txt" "a1" [] false "f.txt" "/abs/f.txt" "task-1"
    cfgOk { ownerAddress := "osmo1owner" } actionPendingPadded
    rfl rfl rfl rfl (by decide) rfl rfl rfl rfl

/-- Counterexample for C7 as stated: the mesh upload signer is the
trimmed creator, which differs from the recorded creator address when
the record carries surrounding whitespace. -/
theorem c7_counterexample :
    envC7.getAction "a1" = .ok actionPendingPadded ∧
    actionPendingPadded.creator = " lumera1creator " ∧
    (uploadRun envC7 "f.txt" [] "a1" false).2 =
      [Event.meshUpload "a1" "/abs/f.txt" "lumera1creator"] ∧
    "lumera1creator" ≠ " lumera1creator " := by
  refine ⟨rfl, rfl, rfl, by decide⟩

/-! ### Claim C6 — approve resolves the ICA address by query only -/

/-- The approve tail never records a registration event. -/
theorem approveFinish_no_icaEnsure (env : Env) (controller : ICAController)
    (actionID icaAddr : String) (tr : List Event)
    (h : Event.icaEnsure ∉ tr) :
    Event.icaEnsure ∉ (approveFinish env controller actionID icaAddr tr).2 := by
  unfold approveFinish
  split
  · simp [h]
  · split <;> simp [h]

/-- C6.  The approve command never attempts a registration (no
`icaEnsure` event, for any input), and when no override is supplied and
the address query fails, the command fails having performed only the
query — no approve message is built or sent. -/
theorem c6_approve_query_only (env : Env) (actionIDFlag icaAddressFlag : String)
    (args : List String) :
    Event.icaEnsure ∉ (approveRun env actionIDFlag icaAddressFlag args).2 ∧
    (∀ actionID cfg cascClient controller e,
      resolveOptionalArg actionIDFlag args "action-id" = .ok actionID →
      env.loadConfigResult = .ok cfg →
      env.newCascadeClient cfg = .ok cascClient →
      env.newICAController cfg = .ok controller →
      icaAddressFlag.trimSpace = "" →
      env.icaQueryAddress = .error e →
      approveRun env actionIDFlag icaAddressFlag args = (.error e, [Event.icaQuery])) := by
  constructor
  · unfold approveRun
    split
    · simp
    split
    · simp
    split
    · simp
    split
    · simp
    split
    · split
      · simp
      · exact approveFinish_no_icaEnsure _ _ _ _ _ (by simp)
    · exact approveFinish_no_icaEnsure _ _ _ _ _ (by simp)
  · intro actionID cfg cascClient controller e ha hb hc hd he hf
    simp only [approveRun, ha, hb, hc, hd]
    rw [if_pos he, hf]

/-- Witness for C6: with no override and a not-found query, the approve
command stops after the query. -/
theorem c6_approve_query_only_witness :
    approveRun envBase "a1" "" [] = (.error "ica address not found", [Event.icaQuery]) :=
  (c6_approve_query_only envBase "a1" "" []).2 "a1" cfgOk
    { ownerAddress := "osmo1owner" } { ownerAddress := "osmo1owner", appPubkey := [1] }
    "ica address not found" rfl rfl rfl rfl rfl rfl

/-! ### Claim C8 — download enrichment is best-effort -/

/-- C8.  When the mesh transfer succeeds, a failure of the follow-up
metadata lookup (client construction failure, action lookup failure, or
non-cascade metadata) never fails the command: the result is still `ok`
with an empty file name. -/
theorem c8_download_best_effort (env : Env) (actionIDFlag outDirFlag : String)
    (args : List String) (actionID : String) (cfg : Config)
    (cascClient : CascadeClient) (controller : ICAController) (res : DownloadResult)
    (h1 : resolveOptionalArg actionIDFlag args "action-id" = .ok actionID)
    (h2 : env.loadConfigResult = .ok cfg)
    (h3 : env.mkdirAll (env.filepathClean outDirFlag) = .ok ())
    (h4 : env.newCascadeClient cfg = .ok cascClient)
    (h5 : env.newICAController cfg = .ok controller)
    (h6 : env.meshDownload actionID (env.filepathClean outDirFlag) controller.ownerAddress = .ok res)
    (h7 : (∃ e, env.newLumeraClient cfg = .error e) ∨
          (∃ e, env.getAction actionID = .error e) ∨
          (∀ a, env.getAction actionID = .ok a →
            ∀ m, a.metadata ≠ ActionMetadata.cascade (some m))) :
    downloadRun env actionIDFlag outDirFlag args =
      (.ok { status := "ok", actionId := res.actionID, taskId := res.taskID,
             outputPath := res.outputPath, fileName := "" },
       [Event.meshFetch actionID (env.filepathClean outDirFlag) controller.ownerAddress]) := by
  have hname : lookupFileName env cfg actionID = "" := by
    unfold lookupFileName
    rcases h7 with ⟨e, he⟩ | ⟨e, he⟩ | hmeta
    · simp [he]
    · rcases hlc : env.newLumeraClient cfg with e' | u
      · simp [hlc]
      · simp [hlc, he]
    · rcases hlc : env.newLumeraClient cfg with e' | u
      · simp [hlc]
      rcases hga : env.getAction actionID with e' | a
      · simp [hlc, hga]
      rcases hm : a.metadata with meta | _
      · rcases hmo : meta with _ | m2
        · simp [hlc, hga, hm, hmo]
        · subst hmo; exact absurd hm (hmeta a hga m2)
      · simp [hlc, hga, hm]
  simp only [downloadRun, h1, h2, h3, h4, h5, h6, hname]

/-- Witness for C8: the base environment has no action record, yet the
download reports ok with an empty file name. -/
theorem c8_download_best_effort_witness :
    downloadRun envBase "a1" "/out" [] =
      (.ok { status := "ok", actionId := "a1", taskId := "task-2",
             outputPath := "/out/out.bin", fileName := "" },
       [Event.meshFetch "a1" "/out" "osmo1owner"]) :=
  c8_download_best_effort envBase "a1" "/out" [] "a1" cfgOk
    { ownerAddress := "osmo1owner" } { ownerAddress := "osmo1owner", appPubkey := [1] }
    { actionID := "a1", taskID := "task-2", outputPath := "/out/out.bin" }
    rfl rfl rfl rfl rfl rfl (Or.inr (Or.inl ⟨"action not found", rfl⟩))

/-! ### Claim C9 — the cyclic passphrase reader -/

theorem cyclicSeg_length (data : List UInt8) (pos n : Nat) :
    (cyclicSeg data pos n).length = n := by
  simp [cyclicSeg]

theorem cyclicSeg_add (data : List UInt8) (pos a b : Nat) :
    cyclicSeg data pos (a + b) =
      cyclicSeg data pos a ++ cyclicSeg data (pos + a) b := by
  unfold cyclicSeg
  rw [List.range_add, List.map_append, List.map_map]
  congr 1
  apply List.map_congr_left
  intro x hx
  simp only [Function.comp_apply]
  have : pos + (a + x) = pos + a + x := by omega
  rw [this]

theorem cyclicSeg_congr (data : List UInt8) {pos pos2 : Nat} (n : Nat)
    (h : pos % data.length = pos2 % data.length) :
    cyclicSeg data pos n = cyclicSeg data pos2 n := by
  unfold cyclicSeg
  congr 1
  funext j
  rw [← Nat.mod_add_mod pos data.length j, ← Nat.mod_add_mod pos2 data.length j, h]

theorem readLoop_succ (data : List UInt8) (hdata : data ≠ []) (pos k : Nat)
    (hk : k ≠ 0) :
    readLoop data hdata pos k =
      ((data.drop (readStart data pos)).take (readChunk data pos k) ++
        (readLoop data hdata (readStart data pos + readChunk data pos k)
          (k - readChunk data pos k)).1,
       (readLoop data hdata (readStart data pos + readChunk data pos k)
          (k - readChunk data pos k)).2) := by
  rw [readLoop]
  rw [dif_neg hk]

theorem readLoop_spec (data : List UInt8) (hdata : data ≠ []) :
    ∀ (k pos : Nat), pos ≤ data.length →
      (readLoop data hdata pos k).1 = cyclicSeg data pos k ∧
      (readLoop data hdata pos k).2 ≤ data.length ∧
      (readLoop data hdata pos k).2 % data.length = (pos + k) % data.length := by
  intro k
  induction k using Nat.strong_induction_on with
  | _ k ih =>
    intro pos hpos
    by_cases hk : k = 0
    · subst hk
      rw [readLoop]
      simp [cyclicSeg]
      exact hpos
    · have hlen : 0 < data.length := List.length_pos.mpr hdata
      have hstart_lt : readStart data pos < data.length := by
        simp only [readStart]; split <;> omega
      have hstart_mod : readStart data pos % data.length = pos % data.length := by
        simp only [readStart]
        split
        · have : pos = data.length := by omega
          subst this
          simp
        · rfl
      have hchunk_pos : 0 < readChunk data pos k := by
        simp only [readChunk]
        omega
      have hchunk_le : readChunk data pos k ≤ data.length - readStart data pos :=
        Nat.min_le_left _ _
      have hchunk_le_k : readChunk data pos k ≤ k := Nat.min_le_right _ _
      obtain ⟨ih1, ih2, ih3⟩ := ih (k - readChunk data pos k) (by omega)
        (readStart data pos + readChunk data pos k) (by omega)
      have hseg : (data.drop (readStart data pos)).take (readChunk data pos k) =
          cyclicSeg data pos (readChunk data pos k) := by
        apply List.ext_getElem
        · simp [cyclicSeg_length, List.length_take, List.length_drop]
          omega
        · intro j h1 h2
          have hj : j < readChunk data pos k := by
            simp [List.length_take, List.length_drop] at h1
            omega
          have hjlen : readStart data pos + j < data.length := by omega
          rw [List.getElem_take, List.getElem_drop]
          simp only [cyclicSeg, List.getElem_map, List.getElem_range]
          have hmod : (pos + j) % data.length = readStart data pos + j := by
            rw [← Nat.mod_add_mod pos data.length j, ← hstart_mod,
              Nat.mod_add_mod, Nat.mod_eq_of_lt hjlen]
          rw [hmod, List.getD_eq_getElem data 0 hjlen]
      rw [readLoop_succ data hdata pos k hk]
      refine ⟨?_, ih2, ?_⟩
      · simp only
        rw [hseg, ih1]
        conv_rhs => rw [show k = readChunk data pos k + (k - readChunk data pos k) from by omega]
        rw [cyclicSeg_add]
        congr 1
        exact cyclicSeg_congr data _ (by
          rw [← Nat.mod_add_mod (readStart data pos) data.length (readChunk data pos k),
            hstart_mod, Nat.mod_add_mod])
      · simp only
        rw [ih3]
        have h1 : readStart data pos + readChunk data pos k + (k - readChunk data pos k) =
            readStart data pos + k := by omega
        rw [h1, ← Nat.mod_add_mod (readStart data pos) data.length k, hstart_mod,
          Nat.mod_add_mod]



theorem repeatRead_spec (data : List UInt8) (hdata : data ≠ []) (pos k : Nat)
    (hpos : pos ≤ data.length) :
    (repeatRead ⟨data, pos⟩ k).1 = cyclicSeg data pos k ∧
    (repeatRead ⟨data, pos⟩ k).2.2 = none ∧
    (repeatRead ⟨data, pos⟩ k).2.1.data = data ∧
    (repeatRead ⟨data, pos⟩ k).2.1.pos ≤ data.length ∧
    (repeatRead ⟨data, pos⟩ k).2.1.pos % data.length = (pos + k) % data.length := by
  obtain ⟨h1, h2, h3⟩ := readLoop_spec data hdata k pos hpos
  unfold repeatRead
  rw [dif_neg hdata]
  exact ⟨h1, rfl, rfl, h2, h3⟩

theorem runReads_spec (data : List UInt8) (hdata : data ≠ []) :
    ∀ (ks : List Nat) (pos : Nat), pos ≤ data.length →
      (∀ o ∈ (runReads ⟨data, pos⟩ ks).1, o.2 = none) ∧
      ((runReads ⟨data, pos⟩ ks).1.map (fun o => o.1.length)) = ks ∧
      ((runReads ⟨data, pos⟩ ks).1.map Prod.fst).flatten = cyclicSeg data pos ks.sum := by
  intro ks
  induction ks with
  | nil =>
    intro pos _
    refine ⟨by simp [runReads], by simp [runReads], ?_⟩
    simp [runReads, cyclicSeg]
  | cons k ks ih =>
    intro pos hpos
    obtain ⟨o1, o2, o3, o4, o5⟩ := repeatRead_spec data hdata pos k hpos
    rcases hR : repeatRead ⟨data, pos⟩ k with ⟨out, r', err⟩
    rcases r' with ⟨d', p'⟩
    rw [hR] at o1 o2 o3 o4 o5
    simp only at o1 o2 o3 o4 o5
    rw [o2, o3] at hR
    obtain ⟨i1, i2, i3⟩ := ih p' o4
    refine ⟨?_, ?_, ?_⟩
    · intro o ho
      simp only [runReads, hR, List.mem_cons] at ho
      rcases ho with rfl | ho
      · rfl
      · exact i1 o ho
    · simp only [runReads, hR, List.map_cons, i2]
      rw [o1, cyclicSeg_length]
    · simp only [runReads, hR, List.map_cons, List.flatten_cons, i3, o1]
      rw [List.sum_cons, cyclicSeg_add]
      congr 1
      exact cyclicSeg_congr data _ o5

theorem utf8EncodeChar_ne_nil (c : Char) : String.utf8EncodeChar c ≠ [] := by
  simp only [String.utf8EncodeChar]
  split_ifs <;> simp

theorem utf8Bytes_ne_nil (s : String) (h : s ≠ "") : utf8Bytes s ≠ [] := by
  unfold utf8Bytes
  rcases hd : s.data with _ | ⟨c, cs⟩
  · exact absurd (String.ext (by rw [hd])) h
  · rw [List.flatMap_cons]
    intro hnil
    rcases List.append_eq_nil.mp hnil with ⟨h1, _⟩
    exact utf8EncodeChar_ne_nil c h1



/-- C9.  For every non-empty passphrase, every `Read` call on the
reader built from it returns exactly the requested number of bytes with
no error (never EOF), and the concatenation of the bytes returned
across successive calls is the corresponding prefix of the infinite
cyclic repetition of the passphrase followed by a newline. -/
theorem c9_cyclic_passphrase_reader (passphrase : String) (r : RepeatReader)
    (hr : passphraseReader passphrase = some r) (ks : List Nat) :
    (∀ o ∈ (runReads r ks).1, o.2 = none) ∧
    ((runReads r ks).1.map (fun o => o.1.length)) = ks ∧
    ((runReads r ks).1.map Prod.fst).flatten =
      cyclicTake (utf8Bytes (passphrase ++ "\n")) ks.sum := by
  have hp : passphrase ≠ "" := by
    intro h
    subst h
    simp [passphraseReader] at hr
  have hrr : r = ⟨utf8Bytes (passphrase ++ "\n"), 0⟩ := by
    unfold passphraseReader at hr
    rw [if_neg hp] at hr
    injection hr with h
    exact h.symm
  subst hrr
  have hnn : passphrase ++ "\n" ≠ "" := by
    intro h
    have h2 := congrArg String.length h
    rw [String.length_append] at h2
    have h3 : ("\n" : String).length = 1 := rfl
    have h4 : ("" : String).length = 0 := rfl
    omega
  have hd : utf8Bytes (passphrase ++ "\n") ≠ [] := utf8Bytes_ne_nil _ hnn
  obtain ⟨a, b, c⟩ := runReads_spec _ hd ks 0 (Nat.zero_le _)
  refine ⟨a, b, ?_⟩
  rw [c]
  unfold cyclicSeg cyclicTake
  simp

/-- Witness for C9: reading 2 then 5 bytes from the reader for `pw`
yields the first 7 bytes of the cyclic repetition of `pw\n`. -/
theorem c9_cyclic_passphrase_reader_witness :
    ((runReads ⟨utf8Bytes ("pw" ++ "\n"), 0⟩ [2, 5]).1.map (fun o => o.1.length)) = [2, 5] ∧
    ((runReads ⟨utf8Bytes ("pw" ++ "\n"), 0⟩ [2, 5]).1.map Prod.fst).flatten =
      cyclicTake (utf8Bytes ("pw" ++ "\n")) 7 :=
  ⟨(c9_cyclic_passphrase_reader "pw" ⟨utf8Bytes ("pw" ++ "\n"), 0⟩ rfl [2, 5]).2.1,
   (c9_cyclic_passphrase_reader "pw" ⟨utf8Bytes ("pw" ++ "\n"), 0⟩ rfl [2, 5]).2.2⟩

end LumeraICA
